import Mathlib

/-!
Shallow embedding of `src/utils.py`: the `Pane` (one time period's per-IP
request counters), the fixed-capacity `Window` of retired panes, and the
`AttackDetector` state machine, together with theorems settling the
specification claims.

Modelling conventions:
* Python float arithmetic is idealized as exact arithmetic: sums and means
  live in `ℚ`, values of `math.sqrt` live in `ℝ`.
* Fallible operations (`ZeroDivisionError` on empty statistics, reads of an
  attribute that is `None` or was never assigned) are modelled with `Option`:
  `none` is an uncaught Python exception.
* A Python dict is modelled as an insertion-ordered association list with
  distinct keys; inserting a fresh key appends at the end, as dict iteration
  order does.
* Observable effects (lines printed to stdout, appends to the alert log,
  calls of `shift_window` and of `scan_for_attack`) are recorded in
  instrumentation fields of the detector state.
-/

namespace Utils

/-- `class Pane`: one time period.  `ip_list` is the dict of per-IP request
counters, `n_requests` the running total. -/
structure Pane where
  timestamp : Nat
  ip_list : List (String × Nat)
  n_requests : Nat
deriving DecidableEq

/-- `Pane.__init__`: a pane starts with an empty dict and zero requests. -/
def Pane.fresh (t : Nat) : Pane :=
  { timestamp := t, ip_list := [], n_requests := 0 }

/-- The dict write in `Pane.update`: a new IP is inserted with count 1 (at
the end, matching dict insertion order); an existing IP has its counter
incremented in place. -/
def bumpIp : List (String × Nat) → String → List (String × Nat)
  | [], ip => [(ip, 1)]
  | (k, v) :: rest, ip =>
      if k = ip then (k, v + 1) :: rest else (k, v) :: bumpIp rest ip

/-- `Pane.update`: record one request from `ip`; the dict entry and the total
request counter are both incremented. -/
def Pane.update (p : Pane) (ip : String) : Pane :=
  { p with ip_list := bumpIp p.ip_list ip, n_requests := p.n_requests + 1 }

/-- Sum of the counter values of a dict, as the Python loop accumulates it. -/
def valsSum (l : List (String × Nat)) : Nat :=
  (l.map (fun kv => kv.2)).sum

/-- `Pane.ip_stats`: mean of the per-IP counters, and `math.sqrt` of the sum
of the squared deviations from the mean (the code takes the square root of
`sd_temp` directly, without dividing by the number of IPs).  An empty dict
raises `ZeroDivisionError` at `numer / denom`, modelled as `none`. -/
noncomputable def Pane.ip_stats (p : Pane) : Option (ℚ × ℝ) :=
  if p.ip_list = [] then none
  else
    let numer : Nat := valsSum p.ip_list
    let denom : Nat := p.ip_list.length
    let mean : ℚ := (numer : ℚ) / (denom : ℚ)
    let sd_temp : ℚ := (p.ip_list.map (fun kv => (mean - (kv.2 : ℚ)) ^ 2)).sum
    some (mean, Real.sqrt (sd_temp : ℝ))

/-- `class Window`: the ordered list of retired panes (oldest first) plus the
configured maximum length and the two cached statistics fields that
`get_request_stats` overwrites. -/
structure Window where
  window_length : Nat
  panes : List Pane
  ave_requests : ℚ
  sd_requests : ℝ

/-- `Window.__init__`. -/
noncomputable def Window.init (window_length : Nat) : Window :=
  { window_length := window_length, panes := [], ave_requests := 0, sd_requests := 0 }

/-- `Window.__contains__`: linear scan for a pane carrying the timestamp. -/
def Window.containsTs (w : Window) (timestamp : Nat) : Bool :=
  w.panes.any (fun p => p.timestamp = timestamp)

/-- `Window.shift_window`: append when strictly below the maximum length;
otherwise `pop(0)` (an `IndexError` on an empty list is caught and ignored)
and then, in the `finally` block, append the new pane.  `List.tail [] = []`
models the swallowed `IndexError` exactly. -/
def Window.shift_window (w : Window) (new_pane : Pane) : Window :=
  if w.panes.length < w.window_length then
    { w with panes := w.panes ++ [new_pane] }
  else
    { w with panes := w.panes.tail ++ [new_pane] }

/-- `Window.get_request_stats`: mean of `n_requests` over the held panes and
`math.sqrt` of the sum of squared deviations (again without dividing by the
number of panes); both are cached on the window object and returned.  An
empty window raises `ZeroDivisionError`, modelled as `none`. -/
noncomputable def Window.get_request_stats (w : Window) : Option (Window × ℚ × ℝ) :=
  if w.panes = [] then none
  else
    let numer : Nat := (w.panes.map (fun p => p.n_requests)).sum
    let ave : ℚ := (numer : ℚ) / (w.panes.length : ℚ)
    let sd_temp : ℚ := (w.panes.map (fun p => (ave - (p.n_requests : ℚ)) ^ 2)).sum
    some ({ w with ave_requests := ave, sd_requests := Real.sqrt (sd_temp : ℝ) },
      ave, Real.sqrt (sd_temp : ℝ))

/-- Rolling a list of panes into a window one by one. -/
def rollAll (w : Window) (ps : List Pane) : Window :=
  ps.foldl Window.shift_window w

/-! ### Bucket invariant (C6) -/

lemma valsSum_bumpIp (l : List (String × Nat)) (ip : String) :
    valsSum (bumpIp l ip) = valsSum l + 1 := by
  induction l with
  | nil => simp [bumpIp, valsSum]
  | cons kv rest ih =>
      obtain ⟨k, v⟩ := kv
      by_cases h : k = ip
      · simp [bumpIp, h, valsSum]
        omega
      · simp [bumpIp, h, valsSum] at *
        omega

lemma update_preserves_total (p : Pane) (ip : String)
    (hp : p.n_requests = valsSum p.ip_list) :
    (p.update ip).n_requests = valsSum (p.update ip).ip_list := by
  simp [Pane.update, valsSum_bumpIp, hp]

/-- C6: for every sequence of `update` calls on a freshly created `Pane`,
`n_requests` equals the sum of the counter values stored in `ip_list`. -/
theorem claim6_total_requests_eq_sum (t : Nat) (ips : List String) :
    (ips.foldl Pane.update (Pane.fresh t)).n_requests
      = valsSum (ips.foldl Pane.update (Pane.fresh t)).ip_list := by
  have key : ∀ (l : List String) (p : Pane),
      p.n_requests = valsSum p.ip_list →
      (l.foldl Pane.update p).n_requests = valsSum (l.foldl Pane.update p).ip_list := by
    intro l
    induction l with
    | nil => intro p hp; simpa using hp
    | cons ip rest ih =>
        intro p hp
        simpa using ih (p.update ip) (update_preserves_total p ip hp)
  exact key ips (Pane.fresh t) (by simp [Pane.fresh, valsSum])

/-! ### Window FIFO invariant (C1) -/

lemma shift_window_window_length (w : Window) (p : Pane) :
    (w.shift_window p).window_length = w.window_length := by
  unfold Window.shift_window
  split <;> rfl

lemma rollAll_window_length (ps : List Pane) :
    ∀ (w : Window), (rollAll w ps).window_length = w.window_length := by
  induction ps with
  | nil => intro w; rfl
  | cons p rest ih =>
      intro w
      have h1 : rollAll w (p :: rest) = rollAll (w.shift_window p) rest := by
        simp [rollAll]
      rw [h1, ih, shift_window_window_length]

lemma rollAll_concat (w : Window) (l : List Pane) (a : Pane) :
    rollAll w (l ++ [a]) = (rollAll w l).shift_window a := by
  simp [rollAll]

lemma rollAll_panes_eq_drop (C : Nat) (hC : 0 < C) (ps : List Pane) :
    (rollAll (Window.init C) ps).panes = ps.drop (ps.length - C) := by
  induction ps using List.reverseRecOn with
  | nil => simp [rollAll, Window.init]
  | append_singleton l a ih =>
      rw [rollAll_concat]
      unfold Window.shift_window
      rw [rollAll_window_length]
      by_cases hlen : l.length < C
      · have hc : (rollAll (Window.init C) l).panes.length < (Window.init C).window_length := by
          rw [ih, List.length_drop]
          simp [Window.init]
          omega
        rw [if_pos hc, ih]
        have h0 : l.length - C = 0 := by omega
        have h1 : l.length + 1 - C = 0 := by omega
        simp [h0, h1]
      · have hc : ¬ (rollAll (Window.init C) l).panes.length < (Window.init C).window_length := by
          rw [ih, List.length_drop]
          simp [Window.init]
          omega
        rw [if_neg hc, ih]
        have htail : (l.drop (l.length - C)).tail = l.drop (l.length - C + 1) := by
          rw [List.tail_drop]
        have hle : l.length + 1 - C ≤ l.length := by omega
        have hdrop : (l ++ [a]).drop (l.length + 1 - C) = l.drop (l.length + 1 - C) ++ [a] := by
          rw [List.drop_append_eq_append_drop]
          have : l.length + 1 - C - l.length = 0 := by omega
          rw [this]
          simp
        simp only [List.length_append, List.length_cons, List.length_nil, Nat.zero_add]
        rw [hdrop, htail]
        have : l.length - C + 1 = l.length + 1 - C := by omega
        rw [this]

/-- C1: a window of positive capacity `C`, fed any sequence of panes through
`shift_window`, never holds more than `C` panes, and always holds exactly the
most recent panes in arrival order (after `C + k` roll-ins, exactly the last
`C`, which `List.drop` expresses). -/
theorem claim1_window_fifo (C : Nat) (hC : 0 < C) (ps : List Pane) :
    (rollAll (Window.init C) ps).panes.length ≤ C ∧
      (rollAll (Window.init C) ps).panes = ps.drop (ps.length - C) := by
  have h := rollAll_panes_eq_drop C hC ps
  refine ⟨?_, h⟩
  rw [h, List.length_drop]
  omega

/-- C1 witness: capacity 2, three roll-ins; the window keeps the last two
panes in order. -/
theorem claim1_window_fifo_witness :
    0 < 2 ∧
      ((rollAll (Window.init 2) [Pane.fresh 1, Pane.fresh 2, Pane.fresh 3]).panes.length ≤ 2 ∧
        (rollAll (Window.init 2) [Pane.fresh 1, Pane.fresh 2, Pane.fresh 3]).panes
          = [Pane.fresh 1, Pane.fresh 2, Pane.fresh 3].drop
              ([Pane.fresh 1, Pane.fresh 2, Pane.fresh 3].length - 2)) :=
  ⟨by decide, claim1_window_fifo 2 (by decide) [Pane.fresh 1, Pane.fresh 2, Pane.fresh 3]⟩

/-! ### Capacity zero (C4) -/

/-- C4 counterexample: a capacity-0 window that receives one `shift_window`
call does not stay empty — the swallowed `IndexError` is followed by the
`finally` append, so the length becomes 1, not 0. -/
theorem claim4_counterexample :
    ¬ ((Window.init 0).shift_window (Pane.fresh 1)).panes.length = 0 := by
  decide

lemma rollAll_capacity_zero_panes (ps : List Pane) :
    (rollAll (Window.init 0) ps).panes = (ps.getLast?).toList := by
  induction ps using List.reverseRecOn with
  | nil => simp [rollAll, Window.init]
  | append_singleton l a ih =>
      rw [rollAll_concat]
      unfold Window.shift_window
      rw [rollAll_window_length]
      have hc : ¬ (rollAll (Window.init 0) l).panes.length < (Window.init 0).window_length := by
        simp [Window.init]
      rw [if_neg hc, ih]
      have hlast : (l ++ [a]).getLast? = some a := by
        cases l with
        | nil => rfl
        | cons x xs => exact List.getLast?_concat _
      rw [hlast]
      cases h : l.getLast? <;> simp

/-- C4 amended: `shift_window` on a capacity-0 window is total (the
`IndexError` of `pop(0)` is swallowed), but the window does not stay empty:
it always holds exactly the most recent pane, so after at least one roll-in
its length is 1, never 0. -/
theorem claim4_capacity_zero (ps : List Pane) :
    (rollAll (Window.init 0) ps).panes = (ps.getLast?).toList ∧
      (rollAll (Window.init 0) ps).panes.length ≤ 1 := by
  have h := rollAll_capacity_zero_panes ps
  refine ⟨h, ?_⟩
  rw [h]
  cases ps.getLast? <;> simp

/-! ### Per-address statistics (C2) and window request statistics (C3)

The spec asserts the population standard deviation (divide the sum of squared
deviations by the count, then take the square root).  The code takes the
square root of the raw sum of squared deviations without dividing, so the
value it returns is `√count` times the population standard deviation. -/

/-- The arithmetic mean the spec describes for `ip_stats`. -/
def specIpMean (l : List (String × Nat)) : ℚ :=
  (valsSum l : ℚ) / (l.length : ℚ)

/-- The population standard deviation the spec describes for `ip_stats`:
square root of (sum of squared deviations from the mean / count). -/
noncomputable def specIpPopStdev (l : List (String × Nat)) : ℝ :=
  Real.sqrt ((((l.map (fun kv => (specIpMean l - (kv.2 : ℚ)) ^ 2)).sum
      / (l.length : ℚ) : ℚ) : ℝ))

/-- A concrete pane with two addresses, counts 1 and 3. -/
def cPane : Pane :=
  { timestamp := 0, ip_list := [("a", 1), ("b", 3)], n_requests := 4 }

lemma cPane_ip_stats : cPane.ip_stats = some (2, Real.sqrt 2) := by
  have hne : cPane.ip_list ≠ [] := by decide
  unfold Pane.ip_stats
  rw [if_neg hne]
  have hmean : ((valsSum cPane.ip_list : ℚ) / (cPane.ip_list.length : ℚ)) = 2 := by
    norm_num [cPane, valsSum]
  norm_num [cPane, valsSum]

lemma cPane_spec_stdev : specIpPopStdev cPane.ip_list = 1 := by
  have : (((cPane.ip_list.map
      (fun kv => (specIpMean cPane.ip_list - (kv.2 : ℚ)) ^ 2)).sum
      / (cPane.ip_list.length : ℚ) : ℚ) : ℝ) = 1 := by
    norm_num [cPane, specIpMean, valsSum]
  rw [specIpPopStdev, this, Real.sqrt_one]

/-- C2 counterexample: on the pane with per-address counts 1 and 3,
`ip_stats` does not return the population standard deviation: it returns
`√2` where the population formula gives `1`. -/
theorem claim2_counterexample :
    ¬ cPane.ip_stats = some (specIpMean cPane.ip_list, specIpPopStdev cPane.ip_list) := by
  intro h
  rw [cPane_ip_stats, cPane_spec_stdev] at h
  have h2 : Real.sqrt 2 = 1 := by
    have := Option.some.inj h
    exact congrArg Prod.snd this
  rw [Real.sqrt_eq_one] at h2
  norm_num at h2

/-- C2 amended: for every non-empty pane, `ip_stats` returns the mean of the
per-address counts together with `√count` times the population standard
deviation (the code omits the division by the count under the root). -/
theorem claim2_ip_stats_formula (p : Pane) (h : p.ip_list ≠ []) :
    p.ip_stats = some (specIpMean p.ip_list,
      Real.sqrt (p.ip_list.length : ℝ) * specIpPopStdev p.ip_list) := by
  have hlen : 0 < p.ip_list.length := List.length_pos.mpr h
  have hlenR : (0 : ℝ) < (p.ip_list.length : ℝ) := by exact_mod_cast hlen
  have hne0 : ((p.ip_list.length : ℝ)) ≠ 0 := ne_of_gt hlenR
  unfold Pane.ip_stats specIpPopStdev
  rw [if_neg h]
  refine congrArg some (Prod.ext rfl ?_)
  show Real.sqrt _ = _
  rw [← Real.sqrt_mul (le_of_lt hlenR)]
  congr 1
  simp only [specIpMean]
  push_cast
  field_simp

/-- C2 amended witness: the concrete pane with counts 1 and 3. -/
theorem claim2_ip_stats_formula_witness :
    cPane.ip_list ≠ [] ∧
      cPane.ip_stats = some (specIpMean cPane.ip_list,
        Real.sqrt (cPane.ip_list.length : ℝ) * specIpPopStdev cPane.ip_list) :=
  ⟨by decide, claim2_ip_stats_formula cPane (by decide)⟩

/-- The arithmetic mean the spec describes for `get_request_stats`. -/
def specWinMean (ps : List Pane) : ℚ :=
  (((ps.map (fun p => p.n_requests)).sum : Nat) : ℚ) / (ps.length : ℚ)

/-- The population standard deviation the spec describes for
`get_request_stats`. -/
noncomputable def specWinPopStdev (ps : List Pane) : ℝ :=
  Real.sqrt ((((ps.map (fun p => (specWinMean ps - (p.n_requests : ℚ)) ^ 2)).sum
      / (ps.length : ℚ) : ℚ) : ℝ))

/-- A concrete window holding two panes with totals 1 and 3. -/
def cWindow : Window :=
  { window_length := 5
    panes := [{ timestamp := 0, ip_list := [("a", 1)], n_requests := 1 },
              { timestamp := 1, ip_list := [("b", 3)], n_requests := 3 }]
    ave_requests := 0
    sd_requests := 0 }

lemma cWindow_stats :
    (cWindow.get_request_stats).map (fun r => r.2) = some (2, Real.sqrt 2) := by
  have hne : cWindow.panes ≠ [] := by
    simp [cWindow]
  unfold Window.get_request_stats
  rw [if_neg hne]
  norm_num [cWindow]

lemma cWindow_spec_stdev : specWinPopStdev cWindow.panes = 1 := by
  have : (((cWindow.panes.map
      (fun p => (specWinMean cWindow.panes - (p.n_requests : ℚ)) ^ 2)).sum
      / (cWindow.panes.length : ℚ) : ℚ) : ℝ) = 1 := by
    norm_num [cWindow, specWinMean]
  rw [specWinPopStdev, this, Real.sqrt_one]

/-- C3 counterexample: on the window holding totals 1 and 3,
`get_request_stats` does not return the population standard deviation: it
returns `√2` where the population formula gives `1`. -/
theorem claim3_counterexample :
    ¬ (cWindow.get_request_stats).map (fun r => r.2)
        = some (specWinMean cWindow.panes, specWinPopStdev cWindow.panes) := by
  intro h
  rw [cWindow_stats, cWindow_spec_stdev] at h
  have h2 : Real.sqrt 2 = 1 := by
    have := Option.some.inj h
    exact congrArg Prod.snd this
  rw [Real.sqrt_eq_one] at h2
  norm_num at h2

/-- C3 amended: for every non-empty window, `get_request_stats` returns the
mean of the held panes' `n_requests` together with `√count` times their
population standard deviation (the code omits the division by the number of
panes under the root). -/
theorem claim3_request_stats_formula (w : Window) (h : w.panes ≠ []) :
    (w.get_request_stats).map (fun r => r.2) = some (specWinMean w.panes,
      Real.sqrt (w.panes.length : ℝ) * specWinPopStdev w.panes) := by
  have hlen : 0 < w.panes.length := List.length_pos.mpr h
  have hlenR : (0 : ℝ) < (w.panes.length : ℝ) := by exact_mod_cast hlen
  have hne0 : ((w.panes.length : ℝ)) ≠ 0 := ne_of_gt hlenR
  unfold Window.get_request_stats specWinPopStdev
  rw [if_neg h]
  simp only [Option.map_some]
  refine congrArg some (Prod.ext rfl ?_)
  show Real.sqrt _ = _
  rw [← Real.sqrt_mul (le_of_lt hlenR)]
  congr 1
  simp only [specWinMean]
  push_cast
  field_simp

/-- C3 amended witness: the concrete two-pane window with totals 1 and 3. -/
theorem claim3_request_stats_formula_witness :
    cWindow.panes ≠ [] ∧
      (cWindow.get_request_stats).map (fun r => r.2) = some (specWinMean cWindow.panes,
        Real.sqrt (cWindow.panes.length : ℝ) * specWinPopStdev cWindow.panes) :=
  ⟨by simp [cWindow], claim3_request_stats_formula cWindow (by simp [cWindow])⟩

/-! ### The detector state machine -/

/-- `class AttackDetector`: the window, the live pane and its timestamp, the
boolean attack status, and the three baseline attributes.  `__init__` sets
`normal_request_stats` and `normal_ip_stats` to `None`; the attribute
`normal_stats` that `scan_for_attack` actually reads and writes is *not*
initialized at all — `none` models both `None` and a never-assigned
attribute, and reading it through `Option` failure models the
`TypeError`/`AttributeError` Python would raise.

The last four fields instrument the observable effects: `printed` records the
status lines written to stdout (label, request total, status), `rollins`
counts `shift_window` calls, `scans` counts `scan_for_attack` calls, and
`alerts` records the addresses appended to the alert log file. -/
structure AttackDetector where
  window : Window
  current_pane : Option Pane
  current_timestamp : Option Nat
  status : Bool
  normal_request_stats : Option (ℚ × ℝ)
  normal_ip_stats : Option (ℚ × ℝ)
  normal_stats : Option (ℚ × ℝ)
  printed : List (Nat × Nat × Bool)
  rollins : Nat
  scans : Nat
  alerts : List String

/-- `AttackDetector.__init__`. -/
noncomputable def AttackDetector.init (window_length : Nat) : AttackDetector :=
  { window := Window.init window_length
    current_pane := none
    current_timestamp := none
    status := false
    normal_request_stats := none
    normal_ip_stats := none
    normal_stats := none
    printed := []
    rollins := 0
    scans := 0
    alerts := [] }

/-- The comparison loop of `check_ip_stats`: walk the current pane's per-IP
counters and return `True` at the first count above `mean + 2 * sd` of the
reference statistics.  Every executed iteration subscripts the reference
statistics, so an unset reference fails unless the loop body never runs. -/
noncomputable def checkLoop (stats : Option (ℚ × ℝ)) : List (String × Nat) → Option Bool
  | [] => some false
  | (_, v) :: rest =>
      match stats with
      | none => none
      | some (m, sd) =>
          if ((v : ℝ) > (m : ℝ) + 2 * sd) then some true else checkLoop stats rest

/-- `AttackDetector.check_ip_stats`: under attack, compare the current pane
against the stored `normal_ip_stats`; otherwise first refresh
`normal_ip_stats` from the last pane of the window (`panes[-1]`, an
`IndexError` on an empty window) and compare against the refreshed value. -/
noncomputable def AttackDetector.check_ip_stats (d : AttackDetector) :
    Option (Bool × AttackDetector) :=
  if d.status then
    match d.current_pane with
    | none => none
    | some p =>
        match checkLoop d.normal_ip_stats p.ip_list with
        | none => none
        | some b => some (b, d)
  else
    match d.window.panes.getLast? with
    | none => none
    | some lastPane =>
        match lastPane.ip_stats with
        | none => none
        | some stats =>
            match d.current_pane with
            | none => none
            | some p =>
                match checkLoop (some stats) p.ip_list with
                | none => none
                | some b => some (b, { d with normal_ip_stats := some stats })

/-- The loop of `write_ips_to_logs`: collect, in iteration order, every IP of
the current pane whose count exceeds `mean + 2 * sd` of `normal_ip_stats`.
As in `checkLoop`, each executed iteration subscripts the statistics. -/
noncomputable def writeLoop (stats : Option (ℚ × ℝ)) : List (String × Nat) → Option (List String)
  | [] => some []
  | (ip, v) :: rest =>
      match stats with
      | none => none
      | some (m, sd) =>
          match writeLoop stats rest with
          | none => none
          | some ips =>
              if ((v : ℝ) > (m : ℝ) + 2 * sd) then some (ip :: ips) else some ips

/-- `AttackDetector.write_ips_to_logs`: append the offending addresses of the
current pane to the alert log. -/
noncomputable def AttackDetector.write_ips_to_logs (d : AttackDetector) :
    Option AttackDetector :=
  match d.current_pane with
  | none => none
  | some p =>
      match writeLoop d.normal_ip_stats p.ip_list with
      | none => none
      | some ips => some { d with alerts := d.alerts ++ ips }

/-- `AttackDetector.scan_for_attack`.  Under attack: compare the retiring
pane's total against the stored `normal_stats` (with Python's short-circuit
`and`, `check_ip_stats` runs only when the first comparison holds); keep
alerting while both hold, otherwise fall back to normal.  Not under attack:
recompute the window statistics, and on both conditions escalate — set
`status`, store `normal_stats = (ave, sd)` and write the alerts. -/
noncomputable def AttackDetector.scan_for_attack (d : AttackDetector) :
    Option AttackDetector :=
  if d.status then
    match d.current_pane, d.normal_stats with
    | some p, some (m, sd) =>
        if ((p.n_requests : ℝ) > (m : ℝ) + 2 * sd) then
          match d.check_ip_stats with
          | none => none
          | some (b, d1) =>
              if b then d1.write_ips_to_logs
              else some { d1 with status := false }
        else some { d with status := false }
    | _, _ => none
  else
    match d.window.get_request_stats with
    | none => none
    | some (w1, ave, sd) =>
        match d.current_pane with
        | none => none
        | some p =>
            if ((p.n_requests : ℝ) > (ave : ℝ) + 2 * sd) then
              match AttackDetector.check_ip_stats { d with window := w1 } with
              | none => none
              | some (b, d2) =>
                  if b then
                    AttackDetector.write_ips_to_logs
                      { d2 with status := true, normal_stats := some (ave, sd) }
                  else some d2
            else some { d with window := w1 }

/-- The first statement of `process_data`: create the live pane and set the
current timestamp if the pane does not exist yet (this runs only on the very
first record ever processed). -/
noncomputable def AttackDetector.ensure_pane (d0 : AttackDetector) (timestamp : Nat) :
    AttackDetector :=
  match d0.current_pane with
  | none => { d0 with current_timestamp := some timestamp
                      current_pane := some (Pane.fresh timestamp) }
  | some _ => d0

/-- The remainder of `process_data` once the live pane exists: on a record
for the current timestamp, update the live pane; on a new timestamp not
already present in the window, scan (only when the window holds more than
one pane), print the status line, roll the retired pane into the window and
start a fresh pane.  A new timestamp already present in the window is
ignored. -/
noncomputable def AttackDetector.process_rest (d : AttackDetector) (ip : String)
    (timestamp : Nat) : Option AttackDetector :=
  if some timestamp ≠ d.current_timestamp then
    if d.window.containsTs timestamp then some d
    else
      match (if d.window.panes.length > 1 then
               AttackDetector.scan_for_attack { d with scans := d.scans + 1 }
             else some d) with
      | none => none
      | some d1 =>
          match d1.current_pane with
          | none => none
          | some p =>
              some { d1 with
                     printed := d1.printed
                       ++ [(d1.current_timestamp.getD 0, p.n_requests, d1.status)]
                     window := d1.window.shift_window p
                     rollins := d1.rollins + 1
                     current_timestamp := some timestamp
                     current_pane := some (Pane.fresh timestamp) }
  else
    match d.current_pane with
    | none => none
    | some p => some { d with current_pane := some (p.update ip) }

/-- `AttackDetector.process_data`: `ensure_pane` followed by
`process_rest`. -/
noncomputable def AttackDetector.process_data (d0 : AttackDetector) (ip : String)
    (timestamp : Nat) : Option AttackDetector :=
  (d0.ensure_pane timestamp).process_rest ip timestamp

/-- Feeding a list of (ip, timestamp) records to the detector in order,
stopping at the first uncaught exception. -/
noncomputable def runFeed (d : AttackDetector) : List (String × Nat) → Option AttackDetector
  | [] => some d
  | (ip, t) :: rest =>
      match d.process_data ip t with
      | none => none
      | some d1 => runFeed d1 rest

/-- Detector states reachable from `__init__` by successful `process_data`
calls. -/
inductive Reachable : AttackDetector → Prop
  | init (C : Nat) : Reachable (AttackDetector.init C)
  | step (d : AttackDetector) (ip : String) (t : Nat) (d1 : AttackDetector) :
      Reachable d → d.process_data ip t = some d1 → Reachable d1

/-! ### Frame lemmas for the detector operations -/

lemma check_ip_stats_fields (d : AttackDetector) (b : Bool) (d2 : AttackDetector)
    (h : d.check_ip_stats = some (b, d2)) :
    d2.status = d.status ∧ d2.normal_stats = d.normal_stats ∧
      d2.current_pane = d.current_pane ∧ d2.window = d.window ∧
      (d.status = false → d2.normal_ip_stats.isSome) ∧
      (d.status = true → d2 = d) := by
  unfold AttackDetector.check_ip_stats at h
  by_cases hs : d.status = true
  · rw [if_pos hs] at h
    split at h
    · exact absurd h (by simp)
    · split at h
      · exact absurd h (by simp)
      · injection h with h1
        injection h1 with hb hd
        subst hd
        exact ⟨rfl, rfl, rfl, rfl, fun hf => absurd hs (by simp [hf]), fun _ => rfl⟩
  · rw [if_neg hs] at h
    split at h
    · exact absurd h (by simp)
    · split at h
      · exact absurd h (by simp)
      · split at h
        · exact absurd h (by simp)
        · split at h
          · exact absurd h (by simp)
          · injection h with h1
            injection h1 with hb hd
            subst hd
            exact ⟨rfl, rfl, rfl, rfl, fun _ => rfl, fun ht => absurd ht hs⟩

lemma write_ips_fields (d d1 : AttackDetector) (h : d.write_ips_to_logs = some d1) :
    d1.status = d.status ∧ d1.normal_stats = d.normal_stats ∧
      d1.normal_ip_stats = d.normal_ip_stats ∧ d1.current_pane = d.current_pane ∧
      d1.window = d.window := by
  unfold AttackDetector.write_ips_to_logs at h
  split at h
  · exact absurd h (by simp)
  · split at h
    · exact absurd h (by simp)
    · injection h with h1
      subst h1
      exact ⟨rfl, rfl, rfl, rfl, rfl⟩

/-- The `scan_for_attack` facts behind C5: while under attack the stored
`normal_stats` is never modified, and a modification of `normal_stats` can
only happen on the normal-to-attack escalation. -/
lemma scan_normal_stats (d ds : AttackDetector) (h : d.scan_for_attack = some ds) :
    (d.status = true → ds.normal_stats = d.normal_stats) ∧
    (ds.normal_stats ≠ d.normal_stats → d.status = false ∧ ds.status = true) := by
  by_cases hs : d.status = true
  · unfold AttackDetector.scan_for_attack at h
    rw [if_pos hs] at h
    have hpres : ds.normal_stats = d.normal_stats := by
      split at h
      · rename_i p m sd _
        split at h
        · split at h
          · exact absurd h (by simp)
          · rename_i b d1 _
            obtain ⟨h1st, h1ns, _, _, _, hid⟩ :=
              check_ip_stats_fields d b d1 (by assumption)
            split at h
            · obtain ⟨_, hwns, _, _, _⟩ := write_ips_fields d1 ds h
              rw [hwns, h1ns]
            · injection h with h1
              subst h1
              exact h1ns
        · injection h with h1
          subst h1
          rfl
      · exact absurd h (by simp)
    exact ⟨fun _ => hpres, fun hne => absurd hpres hne⟩
  · have hsf : d.status = false := by simp at hs; exact hs
    unfold AttackDetector.scan_for_attack at h
    rw [if_neg hs] at h
    split at h
    · exact absurd h (by simp)
    · rename_i w1 ave sd _
      split at h
      · exact absurd h (by simp)
      · rename_i p _
        split at h
        · split at h
          · exact absurd h (by simp)
          · rename_i b d2 hcheck
            obtain ⟨h2st, h2ns, _, _, _, _⟩ :=
              check_ip_stats_fields { d with window := w1 } b d2 hcheck
            split at h
            · obtain ⟨hwst, hwns, _, _, _⟩ := write_ips_fields _ ds h
              constructor
              · intro ht; exact absurd ht hs
              · intro _
                exact ⟨hsf, by rw [hwst]⟩
            · injection h with h1
              subst h1
              refine ⟨fun ht => absurd ht hs, fun hne => absurd ?_ hne⟩
              rw [h2ns]
        · injection h with h1
          subst h1
          exact ⟨fun ht => absurd ht hs, fun hne => absurd rfl hne⟩

lemma ensure_pane_fields (d : AttackDetector) (t : Nat) :
    (d.ensure_pane t).status = d.status ∧
      (d.ensure_pane t).normal_stats = d.normal_stats ∧
      (d.ensure_pane t).normal_ip_stats = d.normal_ip_stats ∧
      (d.ensure_pane t).window = d.window ∧
      (d.ensure_pane t).scans = d.scans := by
  unfold AttackDetector.ensure_pane
  split <;> exact ⟨rfl, rfl, rfl, rfl, rfl⟩

lemma process_rest_effect (d : AttackDetector) (ip : String) (t : Nat)
    (d1 : AttackDetector) (h : d.process_rest ip t = some d1) :
    (d1.status = d.status ∧ d1.normal_stats = d.normal_stats ∧
       d1.normal_ip_stats = d.normal_ip_stats) ∨
    (∃ ds : AttackDetector,
       AttackDetector.scan_for_attack { d with scans := d.scans + 1 } = some ds ∧
       d1.status = ds.status ∧ d1.normal_stats = ds.normal_stats ∧
       d1.normal_ip_stats = ds.normal_ip_stats) := by
  unfold AttackDetector.process_rest at h
  split at h
  · split at h
    · injection h with h1
      subst h1
      left; exact ⟨rfl, rfl, rfl⟩
    · by_cases hlen : d.window.panes.length > 1
      · rw [if_pos hlen] at h
        split at h
        · exact absurd h (by simp)
        · rename_i ds hscan
          split at h
          · exact absurd h (by simp)
          · injection h with h1
            subst h1
            right
            exact ⟨ds, hscan, rfl, rfl, rfl⟩
      · rw [if_neg hlen] at h
        split at h
        · exact absurd h (by simp)
        · rename_i dmid heq
          injection heq with hd
          subst hd
          split at h
          · exact absurd h (by simp)
          · injection h with h1
            subst h1
            left; exact ⟨rfl, rfl, rfl⟩
  · split at h
    · exact absurd h (by simp)
    · injection h with h1
      subst h1
      left; exact ⟨rfl, rfl, rfl⟩

/-- Decomposition of a successful `process_data` call: either no scan ran
and the status and both baselines are untouched, or exactly one
`scan_for_attack` ran on a state agreeing with the initial one on status and
baselines, and the final status and baselines are the scan's. -/
lemma process_data_effect (d : AttackDetector) (ip : String) (t : Nat)
    (d1 : AttackDetector) (h : d.process_data ip t = some d1) :
    (d1.status = d.status ∧ d1.normal_stats = d.normal_stats ∧
       d1.normal_ip_stats = d.normal_ip_stats) ∨
    (∃ din ds : AttackDetector, din.status = d.status ∧
       din.normal_stats = d.normal_stats ∧
       din.normal_ip_stats = d.normal_ip_stats ∧ din.scan_for_attack = some ds ∧
       d1.status = ds.status ∧ d1.normal_stats = ds.normal_stats ∧
       d1.normal_ip_stats = ds.normal_ip_stats) := by
  unfold AttackDetector.process_data at h
  obtain ⟨hst, hns, hnis, hwin, hscans⟩ := ensure_pane_fields d t
  rcases process_rest_effect (d.ensure_pane t) ip t d1 h with
    ⟨h1, h2, h3⟩ | ⟨ds, hscan, h1, h2, h3⟩
  · left; exact ⟨h1.trans hst, h2.trans hns, h3.trans hnis⟩
  · right
    exact ⟨{ d.ensure_pane t with scans := (d.ensure_pane t).scans + 1 }, ds,
      hst, hns, hnis, hscan, h1, h2, h3⟩

/-- C5: across every successful `process_data` call, while `status` is
`ATTACK` the stored `normal_stats` baseline is not modified, and any
modification of `normal_stats` happens exactly at an escalation from
`NORMAL` to `ATTACK`. -/
theorem claim5_frozen_baseline (d : AttackDetector) (ip : String) (t : Nat)
    (d1 : AttackDetector) (h : d.process_data ip t = some d1) :
    (d.status = true → d1.normal_stats = d.normal_stats) ∧
    (d1.normal_stats ≠ d.normal_stats → d.status = false ∧ d1.status = true) := by
  rcases process_data_effect d ip t d1 h with
    ⟨hst, hns, _⟩ | ⟨din, ds, hst, hns, _, hscan, h1st, h1ns, _⟩
  · exact ⟨fun _ => hns, fun hne => absurd hns hne⟩
  · have hsc := scan_normal_stats din ds hscan
    constructor
    · intro ht
      rw [h1ns, hsc.1 (by rw [hst, ht]), hns]
    · intro hne
      have hne2 : ds.normal_stats ≠ din.normal_stats := by
        rw [h1ns, ← hns] at hne
        exact hne
      obtain ⟨hf, ht⟩ := hsc.2 hne2
      exact ⟨by rw [← hst, hf], by rw [h1st, ht]⟩

/-! ### The attack state always has assigned baselines (C10) -/

lemma scan_baseline_inv (d ds : AttackDetector) (h : d.scan_for_attack = some ds)
    (hd : d.status = true → d.normal_stats.isSome ∧ d.normal_ip_stats.isSome) :
    ds.status = true → ds.normal_stats.isSome ∧ ds.normal_ip_stats.isSome := by
  intro hds
  by_cases hs : d.status = true
  · obtain ⟨hnsS, hnisS⟩ := hd hs
    unfold AttackDetector.scan_for_attack at h
    rw [if_pos hs] at h
    split at h
    · split at h
      · split at h
        · exact absurd h (by simp)
        · rename_i b d1 hcheck
          obtain ⟨_, _, _, _, _, hid⟩ := check_ip_stats_fields d b d1 hcheck
          split at h
          · obtain ⟨_, hwns, hwnis, _, _⟩ := write_ips_fields d1 ds h
            exact ⟨by rw [hwns, hid hs]; exact hnsS, by rw [hwnis, hid hs]; exact hnisS⟩
          · injection h with h1
            subst h1
            exact absurd hds (by simp)
      · injection h with h1
        subst h1
        exact absurd hds (by simp)
    · exact absurd h (by simp)
  · have hsf : d.status = false := by simp at hs; exact hs
    unfold AttackDetector.scan_for_attack at h
    rw [if_neg hs] at h
    split at h
    · exact absurd h (by simp)
    · rename_i w1 ave sd heqw
      split at h
      · exact absurd h (by simp)
      · rename_i p heqp
        split at h
        · split at h
          · exact absurd h (by simp)
          · rename_i b d2 hcheck
            obtain ⟨h2st, _, _, _, hsome, _⟩ :=
              check_ip_stats_fields { d with window := w1 } b d2 hcheck
            have hnis2 : d2.normal_ip_stats.isSome := hsome hsf
            split at h
            · obtain ⟨_, hwns, hwnis, _, _⟩ := write_ips_fields _ ds h
              refine ⟨by rw [hwns]; rfl, by rw [hwnis]; exact hnis2⟩
            · injection h with h1
              subst h1
              exact absurd (h2st.symm.trans hds) hs
        · injection h with h1
          subst h1
          exact absurd hds (by simp [hsf])

lemma process_data_baseline_inv (d d1 : AttackDetector) (ip : String) (t : Nat)
    (h : d.process_data ip t = some d1)
    (hd : d.status = true → d.normal_stats.isSome ∧ d.normal_ip_stats.isSome) :
    d1.status = true → d1.normal_stats.isSome ∧ d1.normal_ip_stats.isSome := by
  intro h1s
  rcases process_data_effect d ip t d1 h with
    ⟨hst, hns, hnis⟩ | ⟨din, ds, hst, hns, hnis, hscan, h1st, h1ns, h1nis⟩
  · obtain ⟨a, b⟩ := hd (by rw [← hst, h1s])
    exact ⟨by rw [hns]; exact a, by rw [hnis]; exact b⟩
  · have hdin : din.status = true → din.normal_stats.isSome ∧ din.normal_ip_stats.isSome := by
      intro hts
      obtain ⟨a, b⟩ := hd (by rw [← hst, hts])
      exact ⟨by rw [hns]; exact a, by rw [hnis]; exact b⟩
    obtain ⟨a, b⟩ := scan_baseline_inv din ds hscan hdin (by rw [← h1st, h1s])
    exact ⟨by rw [h1ns]; exact a, by rw [h1nis]; exact b⟩

/-- C10: in every detector state reachable from `__init__` by `process_data`
calls, `status = ATTACK` implies that the `normal_stats` and
`normal_ip_stats` baselines have been assigned, so the attack-mode
comparisons never read an unset baseline even though `__init__` only
initializes the differently named `normal_request_stats` field. -/
theorem claim10_attack_state_has_baselines (d : AttackDetector) (hr : Reachable d)
    (hs : d.status = true) :
    d.normal_stats.isSome ∧ d.normal_ip_stats.isSome := by
  revert hs
  induction hr with
  | init C => intro hs; exact absurd hs (by simp [AttackDetector.init])
  | step d0 ip t d1 hr0 hstep ih => exact process_data_baseline_inv d0 d1 ip t hstep ih

/-! ### A window of at most one pane is never scanned (C8) -/

lemma ensure_pane_pane (d : AttackDetector) (t : Nat) :
    ∃ p, (d.ensure_pane t).current_pane = some p := by
  unfold AttackDetector.ensure_pane
  split
  · exact ⟨Pane.fresh t, rfl⟩
  · rename_i p hp
    exact ⟨p, hp⟩

/-- C8: whenever the detector's window holds at most one pane, any
`process_data` call succeeds (no exception), does not invoke
`scan_for_attack` (the `length > 1` guard), and leaves `status` unchanged. -/
theorem claim8_small_window_no_scan (d : AttackDetector) (ip : String) (t : Nat)
    (h : d.window.panes.length ≤ 1) :
    (d.process_data ip t).map (fun r => (r.status, r.scans)) = some (d.status, d.scans) := by
  obtain ⟨p, hp⟩ := ensure_pane_pane d t
  obtain ⟨hst, hns, hnis, hwin, hscans⟩ := ensure_pane_fields d t
  unfold AttackDetector.process_data AttackDetector.process_rest
  by_cases hts : some t ≠ (d.ensure_pane t).current_timestamp
  · rw [if_pos hts]
    by_cases hc : (d.ensure_pane t).window.containsTs t = true
    · rw [if_pos hc]
      simp [hst, hscans]
    · rw [if_neg hc]
      have hlen : ¬ (d.ensure_pane t).window.panes.length > 1 := by
        rw [hwin]; omega
      rw [if_neg hlen]
      simp [hp, hst, hscans]
  · rw [if_neg hts]
    simp [hp, hst, hscans]

/-! ### The boundary-crossing record is lost (C9) -/

/-- C9: when a `process_data` call crosses a time-unit boundary (the live
pane exists, the timestamp differs from the current one and is not in the
window), the new live pane created by the call is completely fresh: the
triggering record's address is recorded nowhere, the new pane has
`n_requests = 0` and an empty address map. -/
theorem claim9_boundary_record_lost (d : AttackDetector) (ip : String) (t ct : Nat)
    (p : Pane) (hp : d.current_pane = some p) (hct : d.current_timestamp = some ct)
    (hne : t ≠ ct) (hcon : d.window.containsTs t = false) (d1 : AttackDetector)
    (h : d.process_data ip t = some d1) :
    d1.current_pane = some (Pane.fresh t) ∧ d1.current_timestamp = some t := by
  unfold AttackDetector.process_data at h
  have he : d.ensure_pane t = d := by
    unfold AttackDetector.ensure_pane
    rw [hp]
  rw [he] at h
  unfold AttackDetector.process_rest at h
  rw [hct] at h
  rw [if_pos (by simp [hne])] at h
  rw [if_neg (by simp [hcon])] at h
  split at h
  · exact absurd h (by simp)
  · split at h
    · exact absurd h (by simp)
    · injection h with h1
      subst h1
      exact ⟨rfl, rfl⟩

/-! ### The round trip (C7) -/

lemma foldl_update_n_requests (ips : List String) :
    ∀ p : Pane, (ips.foldl Pane.update p).n_requests = p.n_requests + ips.length := by
  induction ips with
  | nil => intro p; simp
  | cons ip rest ih =>
      intro p
      simp only [List.foldl_cons, List.length_cons]
      rw [ih]
      simp [Pane.update]
      omega

lemma runFeed_same_timestamp (t : Nat) (ips : List String) :
    ∀ (d : AttackDetector) (p : Pane), d.current_pane = some p →
      d.current_timestamp = some t →
      runFeed d (ips.map (fun ip => (ip, t)))
        = some { d with current_pane := some (ips.foldl Pane.update p) } := by
  induction ips with
  | nil =>
      intro d p hp ht
      simp only [List.map_nil, runFeed, List.foldl_nil]
      rw [← hp]
  | cons ip rest ih =>
      intro d p hp ht
      simp only [List.map_cons, runFeed]
      have hstep : d.process_data ip t = some { d with current_pane := some (p.update ip) } := by
        unfold AttackDetector.process_data
        have he : d.ensure_pane t = d := by
          unfold AttackDetector.ensure_pane
          rw [hp]
        rw [he]
        unfold AttackDetector.process_rest
        rw [ht, if_neg (by simp), hp]
      rw [hstep]
      exact ih { d with current_pane := some (p.update ip) } (p.update ip) rfl ht

/-- Splitting a feed into two stages. -/
lemma runFeed_append (l1 l2 : List (String × Nat)) :
    ∀ d, runFeed d (l1 ++ l2) = match runFeed d l1 with
      | none => none
      | some d1 => runFeed d1 l2 := by
  induction l1 with
  | nil => intro d; rfl
  | cons x rest ih =>
      intro d
      obtain ⟨ip, t⟩ := x
      simp only [List.cons_append, runFeed]
      cases d.process_data ip t with
      | none => rfl
      | some d1 => exact ih d1

/-- A boundary crossing with a window of at most one pane: no scan, one
status line, one roll-in, fresh pane. -/
lemma process_data_boundary_no_scan (d : AttackDetector) (ip : String) (t ct : Nat)
    (p : Pane) (hp : d.current_pane = some p) (hct : d.current_timestamp = some ct)
    (hne : t ≠ ct) (hcon : d.window.containsTs t = false)
    (hlen : ¬ d.window.panes.length > 1) :
    d.process_data ip t = some { d with
      printed := d.printed ++ [(ct, p.n_requests, d.status)]
      window := d.window.shift_window p
      rollins := d.rollins + 1
      current_timestamp := some t
      current_pane := some (Pane.fresh t) } := by
  unfold AttackDetector.process_data
  have he : d.ensure_pane t = d := by
    unfold AttackDetector.ensure_pane
    rw [hp]
  rw [he]
  unfold AttackDetector.process_rest
  rw [hct, if_pos (by simp [hne]), if_neg (by simp [hcon]), if_neg hlen]
  simp [hp, hct]

lemma shift_window_init (C : Nat) (p : Pane) :
    (Window.shift_window
      { window_length := C, panes := [], ave_requests := 0, sd_requests := 0 } p).panes
      = [p] := by
  unfold Window.shift_window
  split <;> rfl

/-- C7: feeding `N ≥ 1` records with one timestamp and then a single record
with a different timestamp to a fresh detector prints exactly one status
line, performs exactly one window roll-in, and the single retired pane holds
exactly `N` requests. -/
theorem claim7_round_trip (C N t s : Nat) (ips : List String) (ip2 : String)
    (hN : 1 ≤ N) (hlen : ips.length = N) (hts : t ≠ s) :
    (runFeed (AttackDetector.init C) (ips.map (fun ip => (ip, t)) ++ [(ip2, s)])).map
        (fun r => (r.printed, r.rollins, r.window.panes.map (fun q => q.n_requests)))
      = some ([(t, N, false)], 1, [N]) := by
  obtain ⟨ip0, rest, rfl⟩ : ∃ ip0 rest, ips = ip0 :: rest := by
    cases ips with
    | nil => rw [← hlen] at hN; simp at hN
    | cons a l => exact ⟨a, l, rfl⟩
  have h1 : (AttackDetector.init C).process_data ip0 t
      = some { AttackDetector.init C with
               current_timestamp := some t
               current_pane := some ((Pane.fresh t).update ip0) } := by
    unfold AttackDetector.process_data
    have he : (AttackDetector.init C).ensure_pane t
        = { AttackDetector.init C with
            current_timestamp := some t
            current_pane := some (Pane.fresh t) } := by
      unfold AttackDetector.ensure_pane AttackDetector.init
      rfl
    rw [he]
    unfold AttackDetector.process_rest
    rw [if_neg (by simp)]
  have h2 : runFeed
      ({ AttackDetector.init C with
         current_timestamp := some t
         current_pane := some ((Pane.fresh t).update ip0) } : AttackDetector)
      (rest.map (fun ip => (ip, t)))
      = some { AttackDetector.init C with
          current_timestamp := some t
          current_pane := some (rest.foldl Pane.update ((Pane.fresh t).update ip0)) } :=
    runFeed_same_timestamp t rest _ ((Pane.fresh t).update ip0) rfl rfl
  have h3 : ({ AttackDetector.init C with
      current_timestamp := some t
      current_pane := some (rest.foldl Pane.update ((Pane.fresh t).update ip0)) }
        : AttackDetector).process_data ip2 s
      = some { AttackDetector.init C with
          printed := [(t, (rest.foldl Pane.update ((Pane.fresh t).update ip0)).n_requests,
            false)]
          window := (Window.init C).shift_window
            (rest.foldl Pane.update ((Pane.fresh t).update ip0))
          rollins := 1
          current_timestamp := some s
          current_pane := some (Pane.fresh s) } :=
    process_data_boundary_no_scan _ ip2 s t _ rfl rfl (Ne.symm hts)
      (by simp [AttackDetector.init, Window.init, Window.containsTs])
      (by simp [AttackDetector.init, Window.init])
  have hn : (rest.foldl Pane.update ((Pane.fresh t).update ip0)).n_requests = N := by
    rw [foldl_update_n_requests]
    simp only [List.length_cons] at hlen
    simp [Pane.update, Pane.fresh]
    omega
  have hone : runFeed (AttackDetector.init C) [(ip0, t)]
      = some { AttackDetector.init C with
               current_timestamp := some t
               current_pane := some ((Pane.fresh t).update ip0) } := by
    rw [runFeed, h1]
    rfl
  have hpre : runFeed (AttackDetector.init C) ((ip0, t) :: rest.map (fun ip => (ip, t)))
      = some { AttackDetector.init C with
          current_timestamp := some t
          current_pane := some (rest.foldl Pane.update ((Pane.fresh t).update ip0)) } := by
    have hsplit : (ip0, t) :: rest.map (fun ip => (ip, t))
        = [(ip0, t)] ++ rest.map (fun ip => (ip, t)) := rfl
    rw [hsplit, runFeed_append, hone]
    exact h2
  have hfull : runFeed (AttackDetector.init C)
      (((ip0, t) :: rest.map (fun ip => (ip, t))) ++ [(ip2, s)])
      = some { AttackDetector.init C with
          printed := [(t, (rest.foldl Pane.update ((Pane.fresh t).update ip0)).n_requests,
            false)]
          window := (Window.init C).shift_window
            (rest.foldl Pane.update ((Pane.fresh t).update ip0))
          rollins := 1
          current_timestamp := some s
          current_pane := some (Pane.fresh s) } := by
    rw [runFeed_append, hpre]
    show runFeed _ [(ip2, s)] = _
    rw [runFeed, h3]
    rfl
  simp only [List.map_cons]
  rw [show (ip0, t) :: rest.map (fun ip => (ip, t)) ++ [(ip2, s)]
        = ((ip0, t) :: rest.map (fun ip => (ip, t))) ++ [(ip2, s)] from rfl, hfull]
  simp [AttackDetector.init, Window.init, shift_window_init, hn]

/-! ### Concrete witnesses -/

/-- A concrete attack-state detector for the C5 witness. -/
noncomputable def wDet : AttackDetector :=
  { window := { window_length := 2, panes := [], ave_requests := 0, sd_requests := 0 }
    current_pane := some (Pane.fresh 5)
    current_timestamp := some 5
    status := true
    normal_request_stats := none
    normal_ip_stats := some (1, 0)
    normal_stats := some (3, 0)
    printed := []
    rollins := 0
    scans := 0
    alerts := [] }

/-- C5 witness: a concrete in-attack detector, one successful call, the
baseline unchanged. -/
theorem claim5_frozen_baseline_witness :
    wDet.process_data "a" 5
        = some { wDet with current_pane := some ((Pane.fresh 5).update "a") } ∧
      wDet.status = true ∧
      ({ wDet with current_pane := some ((Pane.fresh 5).update "a") }
        : AttackDetector).normal_stats = wDet.normal_stats := by
  have h : wDet.process_data "a" 5
      = some { wDet with current_pane := some ((Pane.fresh 5).update "a") } := by rfl
  exact ⟨h, rfl, (claim5_frozen_baseline wDet "a" 5 _ h).1 rfl⟩

/-- A concrete single-pane-window detector for the C8 witness. -/
noncomputable def w8Det : AttackDetector :=
  { window := { window_length := 2
                panes := [{ timestamp := 0, ip_list := [("a", 2)], n_requests := 2 }]
                ave_requests := 0
                sd_requests := 0 }
    current_pane := some { timestamp := 1, ip_list := [("b", 1)], n_requests := 1 }
    current_timestamp := some 1
    status := false
    normal_request_stats := none
    normal_ip_stats := none
    normal_stats := none
    printed := []
    rollins := 1
    scans := 0
    alerts := [] }

/-- C8 witness: a boundary-crossing call on a single-pane window succeeds,
skips the scan and keeps the status. -/
theorem claim8_small_window_no_scan_witness :
    w8Det.window.panes.length ≤ 1 ∧
      (w8Det.process_data "c" 2).map (fun r => (r.status, r.scans))
        = some (w8Det.status, w8Det.scans) :=
  ⟨by decide, claim8_small_window_no_scan w8Det "c" 2 (by decide)⟩

/-- A concrete detector about to cross a boundary, for the C9 witness. -/
noncomputable def w9Det : AttackDetector :=
  { window := { window_length := 2, panes := [], ave_requests := 0, sd_requests := 0 }
    current_pane := some ((Pane.fresh 1).update "a")
    current_timestamp := some 1
    status := false
    normal_request_stats := none
    normal_ip_stats := none
    normal_stats := none
    printed := []
    rollins := 0
    scans := 0
    alerts := [] }

/-- The state after the boundary-crossing call of the C9 witness. -/
noncomputable def w9Res : AttackDetector :=
  { w9Det with
    printed := [(1, 1, false)]
    window := w9Det.window.shift_window ((Pane.fresh 1).update "a")
    rollins := 1
    current_timestamp := some 2
    current_pane := some (Pane.fresh 2) }

/-- C9 witness: the record `("b", 2)` that triggers the boundary is lost —
the new live pane is completely fresh. -/
theorem claim9_boundary_record_lost_witness :
    w9Det.process_data "b" 2 = some w9Res ∧
      w9Res.current_pane = some (Pane.fresh 2) ∧ w9Res.current_timestamp = some 2 := by
  have h : w9Det.process_data "b" 2 = some w9Res := by rfl
  exact ⟨h, claim9_boundary_record_lost w9Det "b" 2 1 _ rfl rfl (by decide) rfl _ h⟩

/-- C7 witness: two records at timestamp 1, then one record at timestamp 2,
on a fresh capacity-3 detector. -/
theorem claim7_round_trip_witness :
    (1 ≤ 2 ∧ (["a", "b"] : List String).length = 2 ∧ (1 : Nat) ≠ 2) ∧
      (runFeed (AttackDetector.init 3)
          ((["a", "b"].map (fun ip => (ip, 1))) ++ [("c", 2)])).map
          (fun r => (r.printed, r.rollins, r.window.panes.map (fun q => q.n_requests)))
        = some ([(1, 2, false)], 1, [2]) :=
  ⟨⟨by decide, by decide, by decide⟩,
    claim7_round_trip 3 2 1 2 ["a", "b"] "c" (by decide) (by decide) (by decide)⟩

/-! ### An end-to-end attack run (C10 witness)

Two quiet time units with two requests each, then a unit with nine requests
from a single address: the scan that retires the third unit escalates to
`ATTACK` and freezes both baselines. -/

lemma runFeed_reachable (l : List (String × Nat)) :
    ∀ d d1, Reachable d → runFeed d l = some d1 → Reachable d1 := by
  induction l with
  | nil =>
      intro d d1 hr h
      injection h with h1
      rw [← h1]
      exact hr
  | cons x rest ih =>
      intro d d1 hr h
      obtain ⟨ip, t⟩ := x
      rw [runFeed] at h
      split at h
      · exact absurd h (by simp)
      · rename_i dmid heq
        exact ih dmid d1 (Reachable.step d ip t dmid hr heq) h

/-- The quiet prefix of the attack run. -/
def atkFeed : List (String × Nat) :=
  [("a", 0), ("b", 0), ("x", 1), ("a", 1), ("b", 1), ("x", 2),
   ("m", 2), ("m", 2), ("m", 2), ("m", 2), ("m", 2), ("m", 2),
   ("m", 2), ("m", 2), ("m", 2)]

def wp0 : Pane := { timestamp := 0, ip_list := [("a", 1), ("b", 1)], n_requests := 2 }

def wp1 : Pane := { timestamp := 1, ip_list := [("a", 1), ("b", 1)], n_requests := 2 }

def wp2 : Pane := { timestamp := 2, ip_list := [("m", 9)], n_requests := 9 }

/-- The detector state after the quiet prefix: two retired panes, the surge
pane live, no scan yet. -/
noncomputable def d7 : AttackDetector :=
  { window := { window_length := 5, panes := [wp0, wp1], ave_requests := 0, sd_requests := 0 }
    current_pane := some wp2
    current_timestamp := some 2
    status := false
    normal_request_stats := none
    normal_ip_stats := none
    normal_stats := none
    printed := [(0, 2, false), (1, 2, false)]
    rollins := 2
    scans := 0
    alerts := [] }

/-- The detector state after the escalating scan and the roll-in of the
surge pane: attacking, with both baselines frozen and one alerted address. -/
noncomputable def dAtk : AttackDetector :=
  { window := { window_length := 5, panes := [wp0, wp1, wp2], ave_requests := 2
                sd_requests := 0 }
    current_pane := some (Pane.fresh 3)
    current_timestamp := some 3
    status := true
    normal_request_stats := none
    normal_ip_stats := some (1, 0)
    normal_stats := some (2, 0)
    printed := [(0, 2, false), (1, 2, false), (2, 9, true)]
    rollins := 3
    scans := 1
    alerts := ["m"] }

lemma atk_prefix_run : runFeed (AttackDetector.init 5) atkFeed = some d7 := by rfl

lemma atk_final_step : d7.process_data "y" 3 = some dAtk := by
  norm_num +decide [AttackDetector.process_data, AttackDetector.ensure_pane,
    AttackDetector.process_rest, AttackDetector.scan_for_attack,
    AttackDetector.check_ip_stats, AttackDetector.write_ips_to_logs,
    Window.get_request_stats, Window.containsTs, Window.shift_window,
    Pane.ip_stats, Pane.fresh, checkLoop, writeLoop, valsSum,
    d7, dAtk, wp0, wp1, wp2, Real.sqrt_zero]

lemma atk_run : runFeed (AttackDetector.init 5) (atkFeed ++ [("y", 3)]) = some dAtk := by
  rw [runFeed_append, atk_prefix_run]
  show runFeed d7 [("y", 3)] = some dAtk
  rw [runFeed, atk_final_step]
  rfl

/-- C10 witness: the state reached by the end-to-end attack run is in
`ATTACK` status and both baselines are assigned. -/
theorem claim10_attack_state_has_baselines_witness :
    Reachable dAtk ∧ dAtk.status = true ∧
      (dAtk.normal_stats.isSome ∧ dAtk.normal_ip_stats.isSome) := by
  have hreach : Reachable dAtk :=
    runFeed_reachable (atkFeed ++ [("y", 3)]) (AttackDetector.init 5) dAtk
      (Reachable.init 5) atk_run
  exact ⟨hreach, rfl, claim10_attack_state_has_baselines dAtk hreach rfl⟩

end Utils
